import Mathlib

/-!
Shallow embedding of `src/packages/deepinfra/src/deepinfra-provider.ts`
(the DeepInfra provider adapter for the AI SDK) and verification of its
specification.

The file embeds the factory `createDeepInfra`, its local helpers
(`getHeaders`, `getCommonModelConfig`, `createChatModel`,
`createCompletionModel`, `createTextEmbeddingModel`, `createImageModel`),
and the exported constant `deepinfra`.  External model classes are
represented as records that remember the three constructor arguments
`(modelId, settings, config)`, since the adapter's whole contract is what
it passes to those constructors.  JavaScript objects used as string maps
are represented as association lists in insertion order, where a later
entry overrides an earlier one on lookup (the semantics of object spread).
The process environment is passed explicitly as a lookup function, so that
"the header resolver reads the environment at call time" is visible in the
types.
-/

namespace DeepInfraSpec

/-- A JavaScript object used as a `Record<string,string>`: an association
list of key/value pairs in insertion order. -/
abbrev JSRecord := List (String × String)

/-- Lookup in a `JSRecord` where a later entry overrides an earlier one
with the same key, matching the result of JavaScript object spread and
property assignment. -/
def lookupLast (k : String) : JSRecord → Option String
  | [] => none
  | (k', v) :: rest =>
    match lookupLast k rest with
    | some v' => some v'
    | none => if k' = k then some v else none

/-- The process environment: maps an environment-variable name to its
value, `none` when the variable is unset. -/
abbrev Env := String → Option String

/-- A caller-supplied `FetchFunction` is never inspected by the adapter,
only stored and passed along; it is represented by a token. -/
structure FetchFunction where
  token : Nat
deriving DecidableEq

/-- `withoutTrailingSlash` from `@ai-sdk/provider-utils`: removes a single
trailing slash from the string, if present.  Stated over the character
list of the string so that it computes by structural recursion. -/
def withoutTrailingSlash (url : String) : String :=
  if url.data.getLast? = some '/' then String.mk url.data.dropLast else url

/-- `loadApiKey` from `@ai-sdk/provider-utils`: returns the supplied key
when present, otherwise the value of the named environment variable,
otherwise fails with a descriptive error.  The environment is an explicit
argument so the lookup visibly happens at each call. -/
def loadApiKey (env : Env) (apiKey : Option String)
    (environmentVariableName : String) (description : String) :
    Except String String :=
  match apiKey with
  | some key => Except.ok key
  | none =>
    match env environmentVariableName with
    | some key => Except.ok key
    | none =>
      Except.error
        (description ++
          " is missing. Pass it using the apiKey parameter or the " ++
          environmentVariableName ++ " environment variable.")

/-- `DeepInfraProviderSettings` from the source: optional API key, base
URL, custom headers and fetch override. -/
structure DeepInfraProviderSettings where
  apiKey : Option String := none
  baseURL : Option String := none
  headers : Option JSRecord := none
  fetch : Option FetchFunction := none

/-- Modelled from the spec: `DeepInfraChatModelId` lives in
`./deepinfra-chat-settings`, which is not under `src/`; model identifiers
are strings. -/
abbrev DeepInfraChatModelId := String

/-- Modelled from the spec: `DeepInfraCompletionModelId` lives in
`./deepinfra-completion-settings`, which is not under `src/`. -/
abbrev DeepInfraCompletionModelId := String

/-- Modelled from the spec: `DeepInfraEmbeddingModelId` lives in
`./deepinfra-embedding-settings`, which is not under `src/`. -/
abbrev DeepInfraEmbeddingModelId := String

/-- Modelled from the spec: `DeepInfraImageModelId` lives in
`./deepinfra-image-settings`, which is not under `src/`. -/
abbrev DeepInfraImageModelId := String

/-- Modelled from the spec: `DeepInfraChatSettings` lives in
`./deepinfra-chat-settings`, which is not under `src/`; the adapter only
passes settings through verbatim, so they are abstract records. -/
structure DeepInfraChatSettings where
  fields : JSRecord := []
deriving DecidableEq

/-- Modelled from the spec: `DeepInfraCompletionSettings` lives in
`./deepinfra-completion-settings`, which is not under `src/`. -/
structure DeepInfraCompletionSettings where
  fields : JSRecord := []
deriving DecidableEq

/-- Modelled from the spec: `DeepInfraEmbeddingSettings` lives in
`./deepinfra-embedding-settings`, which is not under `src/`. -/
structure DeepInfraEmbeddingSettings where
  fields : JSRecord := []
deriving DecidableEq

/-- Modelled from the spec: `DeepInfraImageSettings` lives in
`./deepinfra-image-settings`, which is not under `src/`. -/
structure DeepInfraImageSettings where
  fields : JSRecord := []
deriving DecidableEq

/-- The local `const baseURL` of `createDeepInfra`:
`withoutTrailingSlash(options.baseURL ?? 'https://api.deepinfra.com/v1')`. -/
def providerBaseURL (options : DeepInfraProviderSettings) : String :=
  withoutTrailingSlash (options.baseURL.getD "https://api.deepinfra.com/v1")

/-- The local `getHeaders` closure of `createDeepInfra`: builds
`Authorization: Bearer KEY` from `loadApiKey` and then spreads
`options.headers` after it.  It takes the environment at call time, so the
API key is re-derived on every invocation. -/
def getHeaders (options : DeepInfraProviderSettings) (env : Env) :
    Except String JSRecord :=
  (loadApiKey env options.apiKey "DEEPINFRA_API_KEY" "DeepInfra API key").map
    fun key => ("Authorization", "Bearer " ++ key) :: options.headers.getD []

/-- The `CommonModelConfig` interface of the source: provider tag, URL
resolver, header resolver and optional fetch override. -/
structure CommonModelConfig where
  provider : String
  url : String → String
  headers : Env → Except String JSRecord
  fetch : Option FetchFunction

/-- The local `getCommonModelConfig` of `createDeepInfra`. -/
def getCommonModelConfig (options : DeepInfraProviderSettings)
    (modelType : String) : CommonModelConfig where
  provider := "deepinfra." ++ modelType
  url := fun path => providerBaseURL options ++ "/openai" ++ path
  headers := getHeaders options
  fetch := options.fetch

/-- The record passed to `OpenAICompatibleChatLanguageModel`: the spread of
the common config plus `defaultObjectGenerationMode: 'json'`. -/
structure ChatModelConfig extends CommonModelConfig where
  defaultObjectGenerationMode : String

/-- The record passed to `DeepInfraImageModel`: the spread of the common
config for kind `image` plus an explicit `baseURL` field.  Note that the
object spread in the source copies every common field, the `url` resolver
included, into this record. -/
structure ImageModelConfig extends CommonModelConfig where
  baseURL : String

/-- `OpenAICompatibleChatLanguageModel` is external; an instance is
represented by its three constructor arguments. -/
structure OpenAICompatibleChatLanguageModel where
  modelId : DeepInfraChatModelId
  settings : DeepInfraChatSettings
  config : ChatModelConfig

/-- `OpenAICompatibleCompletionLanguageModel` is external; an instance is
represented by its three constructor arguments. -/
structure OpenAICompatibleCompletionLanguageModel where
  modelId : DeepInfraCompletionModelId
  settings : DeepInfraCompletionSettings
  config : CommonModelConfig

/-- `OpenAICompatibleEmbeddingModel` is external; an instance is
represented by its three constructor arguments. -/
structure OpenAICompatibleEmbeddingModel where
  modelId : DeepInfraEmbeddingModelId
  settings : DeepInfraEmbeddingSettings
  config : CommonModelConfig

/-- `DeepInfraImageModel` lives in `./deepinfra-image-model`, outside
`src/`; an instance is represented by its three constructor arguments. -/
structure DeepInfraImageModel where
  modelId : DeepInfraImageModelId
  settings : DeepInfraImageSettings
  config : ImageModelConfig

/-- The local `createChatModel` of `createDeepInfra`; the optional settings
argument defaults to the empty record, as in the source. -/
def createChatModel (options : DeepInfraProviderSettings)
    (modelId : DeepInfraChatModelId)
    (settings : Option DeepInfraChatSettings) :
    OpenAICompatibleChatLanguageModel where
  modelId := modelId
  settings := settings.getD {}
  config :=
    { toCommonModelConfig := getCommonModelConfig options "chat"
      defaultObjectGenerationMode := "json" }

/-- The local `createCompletionModel` of `createDeepInfra`. -/
def createCompletionModel (options : DeepInfraProviderSettings)
    (modelId : DeepInfraCompletionModelId)
    (settings : Option DeepInfraCompletionSettings) :
    OpenAICompatibleCompletionLanguageModel where
  modelId := modelId
  settings := settings.getD {}
  config := getCommonModelConfig options "completion"

/-- The local `createTextEmbeddingModel` of `createDeepInfra`. -/
def createTextEmbeddingModel (options : DeepInfraProviderSettings)
    (modelId : DeepInfraEmbeddingModelId)
    (settings : Option DeepInfraEmbeddingSettings) :
    OpenAICompatibleEmbeddingModel where
  modelId := modelId
  settings := settings.getD {}
  config := getCommonModelConfig options "embedding"

/-- The local `createImageModel` of `createDeepInfra`: spreads the common
config for kind `image` and sets `baseURL` to the resolved base URL plus
`/inference`, falling back to the default inference endpoint when the
resolved base URL is falsy (the empty string). -/
def createImageModel (options : DeepInfraProviderSettings)
    (modelId : DeepInfraImageModelId)
    (settings : Option DeepInfraImageSettings) :
    DeepInfraImageModel where
  modelId := modelId
  settings := settings.getD {}
  config :=
    { toCommonModelConfig := getCommonModelConfig options "image"
      baseURL :=
        if providerBaseURL options = "" then
          "https://api.deepinfra.com/v1/inference"
        else providerBaseURL options ++ "/inference" }

/-- The `DeepInfraProvider` object: a callable (field `call` is the default
call behavior) with attached factory methods, as assembled at the end of
`createDeepInfra`. -/
structure DeepInfraProvider where
  call : DeepInfraChatModelId → Option DeepInfraChatSettings →
    OpenAICompatibleChatLanguageModel
  chatModel : DeepInfraChatModelId → Option DeepInfraChatSettings →
    OpenAICompatibleChatLanguageModel
  completionModel : DeepInfraCompletionModelId →
    Option DeepInfraCompletionSettings →
    OpenAICompatibleCompletionLanguageModel
  image : DeepInfraImageModelId → Option DeepInfraImageSettings →
    DeepInfraImageModel
  imageModel : DeepInfraImageModelId → Option DeepInfraImageSettings →
    DeepInfraImageModel
  languageModel : DeepInfraChatModelId → Option DeepInfraChatSettings →
    OpenAICompatibleChatLanguageModel
  textEmbeddingModel : DeepInfraEmbeddingModelId →
    Option DeepInfraEmbeddingSettings → OpenAICompatibleEmbeddingModel

/-- `createDeepInfra` from the source: resolves the base URL, builds the
header closure, and returns the callable provider object. -/
def createDeepInfra (options : DeepInfraProviderSettings) :
    DeepInfraProvider where
  call := fun modelId settings => createChatModel options modelId settings
  chatModel := createChatModel options
  completionModel := createCompletionModel options
  image := createImageModel options
  imageModel := createImageModel options
  languageModel := createChatModel options
  textEmbeddingModel := createTextEmbeddingModel options

/-- The exported constant `deepinfra = createDeepInfra()`: the factory
called with the default (empty) settings record. -/
def deepinfra : DeepInfraProvider := createDeepInfra {}

/-- C1: invoking the provider object returned by `createDeepInfra` directly
as a function produces a result identical to invoking its `chatModel`
method with the same arguments; `languageModel` is the same operation as
`chatModel`, and `image` is the same operation as `imageModel`. -/
theorem claim1_default_call_equals_chatModel
    (options : DeepInfraProviderSettings) (modelId : DeepInfraChatModelId)
    (settings : Option DeepInfraChatSettings) :
    (createDeepInfra options).call modelId settings
        = (createDeepInfra options).chatModel modelId settings
      ∧ (createDeepInfra options).languageModel
        = (createDeepInfra options).chatModel
      ∧ (createDeepInfra options).image = (createDeepInfra options).imageModel :=
  ⟨rfl, rfl, rfl⟩

/-- C2: header resolution is lazy.  The chat model created by the provider
carries the unevaluated header resolver `getHeaders options` (model
construction is a total function that never computes headers), and that
resolver re-derives the Authorization header from the API key and the
environment on each call: with no `apiKey`, headers succeed or fail
according to the environment supplied at call time, failing with the
descriptive missing-key error exactly when headers are actually
computed. -/
theorem claim2_headers_lazy
    (options : DeepInfraProviderSettings) (modelId : DeepInfraChatModelId)
    (settings : Option DeepInfraChatSettings)
    (hkey : options.apiKey = none) :
    ((createDeepInfra options).chatModel modelId settings).config.headers
        = getHeaders options
      ∧ (∀ env : Env, env "DEEPINFRA_API_KEY" = none →
          getHeaders options env = Except.error
            "DeepInfra API key is missing. Pass it using the apiKey parameter or the DEEPINFRA_API_KEY environment variable.")
      ∧ (∀ env : Env, ∀ k, env "DEEPINFRA_API_KEY" = some k →
          getHeaders options env = Except.ok
            (("Authorization", "Bearer " ++ k) :: options.headers.getD [])) := by
  refine ⟨rfl, ?_, ?_⟩
  · intro env h
    simp only [getHeaders, loadApiKey, hkey, h]
    rfl
  · intro env k h
    simp only [getHeaders, loadApiKey, hkey, h]
    rfl

/-- C2 witness: with empty settings and an empty environment, the chat
model is still constructed, and computing headers then yields the
missing-key error. -/
theorem claim2_witness :
    ({} : DeepInfraProviderSettings).apiKey = none
      ∧ getHeaders {} (fun _ => none) = Except.error
          "DeepInfra API key is missing. Pass it using the apiKey parameter or the DEEPINFRA_API_KEY environment variable." :=
  ⟨rfl, (claim2_headers_lazy {} "meta-llama/Llama-3.3-70B-Instruct" none
      rfl).2.1 (fun _ => none) rfl⟩

/-- C3: when the API key resolves, the produced header set contains
`Authorization: Bearer KEY` plus every key of the supplied mapping; a
supplied key of the same name overrides the computed value (the supplied
mapping is merged after the Authorization entry), the Authorization key is
never absent, and no other keys appear. -/
theorem claim3_headers_merge
    (options : DeepInfraProviderSettings) (env : Env) (key : String)
    (hok : loadApiKey env options.apiKey "DEEPINFRA_API_KEY"
        "DeepInfra API key" = Except.ok key) :
    ∃ r : JSRecord, getHeaders options env = Except.ok r
      ∧ (∀ k v, lookupLast k (options.headers.getD []) = some v →
          lookupLast k r = some v)
      ∧ (lookupLast "Authorization" (options.headers.getD []) = none →
          lookupLast "Authorization" r = some ("Bearer " ++ key))
      ∧ lookupLast "Authorization" r ≠ none
      ∧ (∀ k, lookupLast k r ≠ none ↔
          (k = "Authorization" ∨
            lookupLast k (options.headers.getD []) ≠ none)) := by
  refine ⟨("Authorization", "Bearer " ++ key) :: options.headers.getD [],
    ?_, ?_, ?_, ?_, ?_⟩
  · unfold getHeaders
    rw [hok]
    rfl
  · intro k v h
    simp [lookupLast, h]
  · intro h
    simp [lookupLast, h]
  · cases h : lookupLast "Authorization" (options.headers.getD []) <;>
      simp [lookupLast, h]
  · intro k
    cases h : lookupLast k (options.headers.getD []) with
    | none =>
      by_cases hk : k = "Authorization"
      · subst hk
        simp [lookupLast, h]
      · have hk' : ¬("Authorization" = k) := fun hh => hk hh.symm
        simp [lookupLast, h, hk, hk']
    | some v =>
      simp [lookupLast, h]

/-- C3 witness: with an explicit API key and one custom header, the header
set holds the Bearer Authorization entry plus the custom key. -/
theorem claim3_witness :
    loadApiKey (fun _ => none) (some "sk-test") "DEEPINFRA_API_KEY"
        "DeepInfra API key" = Except.ok "sk-test"
      ∧ ∃ r : JSRecord,
          getHeaders { apiKey := some "sk-test", headers := some [("X-Custom", "1")] } (fun _ => none) = Except.ok r
        ∧ (∀ k v, lookupLast k [("X-Custom", "1")] = some v →
            lookupLast k r = some v)
        ∧ (lookupLast "Authorization" [("X-Custom", "1")] = none →
            lookupLast "Authorization" r = some ("Bearer " ++ "sk-test"))
        ∧ lookupLast "Authorization" r ≠ none
        ∧ (∀ k, lookupLast k r ≠ none ↔
            (k = "Authorization" ∨ lookupLast k [("X-Custom", "1")] ≠ none)) :=
  ⟨rfl, claim3_headers_merge { apiKey := some "sk-test", headers := some [("X-Custom", "1")] } (fun _ => none) "sk-test" rfl⟩

/-- C4: the URL resolver of the chat, completion and embedding
configurations maps a path to the resolved base URL (the supplied base URL
with one trailing slash stripped, defaulting to
`https://api.deepinfra.com/v1`) followed by `/openai` and the path. -/
theorem claim4_url_resolver
    (options : DeepInfraProviderSettings) (modelId : String)
    (cs : Option DeepInfraChatSettings)
    (ps : Option DeepInfraCompletionSettings)
    (es : Option DeepInfraEmbeddingSettings) (path : String) :
    ((createChatModel options modelId cs).config.url path
        = providerBaseURL options ++ "/openai" ++ path)
      ∧ ((createCompletionModel options modelId ps).config.url path
        = providerBaseURL options ++ "/openai" ++ path)
      ∧ ((createTextEmbeddingModel options modelId es).config.url path
        = providerBaseURL options ++ "/openai" ++ path)
      ∧ (providerBaseURL options
        = withoutTrailingSlash (options.baseURL.getD
            "https://api.deepinfra.com/v1"))
      ∧ (options.baseURL = none →
          (createChatModel options modelId cs).config.url path
            = "https://api.deepinfra.com/v1/openai" ++ path)
      ∧ (options.baseURL = some "https://x/y/" →
          (createChatModel options modelId cs).config.url path
            = "https://x/y/openai" ++ path) := by
  refine ⟨rfl, rfl, rfl, rfl, ?_, ?_⟩
  · intro h
    have h1 : providerBaseURL options = "https://api.deepinfra.com/v1" := by
      simp only [providerBaseURL, h, Option.getD]
      decide
    show providerBaseURL options ++ "/openai" ++ path = _
    rw [h1, show "https://api.deepinfra.com/v1" ++ "/openai"
      = "https://api.deepinfra.com/v1/openai" from by decide]
  · intro h
    have h1 : providerBaseURL options = "https://x/y" := by
      simp only [providerBaseURL, h, Option.getD]
      decide
    show providerBaseURL options ++ "/openai" ++ path = _
    rw [h1, show "https://x/y" ++ "/openai" = "https://x/y/openai" from by
      decide]

/-- C4 witness: with no base URL the chat URL for path `/chat/completions`
is the default endpoint, and a base URL with a trailing slash is
stripped. -/
theorem claim4_witness :
    ((createChatModel {} "m" none).config.url "/chat/completions"
        = "https://api.deepinfra.com/v1/openai" ++ "/chat/completions")
      ∧ ((createChatModel { baseURL := some "https://x/y/" } "m"
          none).config.url "/chat/completions"
        = "https://x/y/openai" ++ "/chat/completions") :=
  ⟨(claim4_url_resolver {} "m" none none none "/chat/completions").2.2.2.2.1
      rfl,
    (claim4_url_resolver { baseURL := some "https://x/y/" } "m" none none
      none "/chat/completions").2.2.2.2.2 rfl⟩

/-- C5: the image model configuration's `baseURL` equals the resolved base
URL followed by `/inference` whenever that base URL is truthy (non-empty),
independently of any path, and falls back to
`https://api.deepinfra.com/v1/inference` when the resolved base URL is
falsy (empty). -/
theorem claim5_image_baseURL
    (options : DeepInfraProviderSettings) (modelId : DeepInfraImageModelId)
    (settings : Option DeepInfraImageSettings) :
    ((createImageModel options modelId settings).config.baseURL
        = if providerBaseURL options = "" then
            "https://api.deepinfra.com/v1/inference"
          else providerBaseURL options ++ "/inference")
      ∧ (providerBaseURL options ≠ "" →
          (createImageModel options modelId settings).config.baseURL
            = providerBaseURL options ++ "/inference")
      ∧ (providerBaseURL options = "" →
          (createImageModel options modelId settings).config.baseURL
            = "https://api.deepinfra.com/v1/inference") := by
  refine ⟨rfl, ?_, ?_⟩ <;> intro h <;> simp [createImageModel, h]

/-- C5 witness: with default settings the image base URL is the default
inference endpoint, and with the falsy base URL produced by
`baseURL = "/"` the fallback applies. -/
theorem claim5_witness :
    ((createImageModel {} "black-forest-labs/FLUX-1-dev" none).config.baseURL
        = "https://api.deepinfra.com/v1/inference")
      ∧ ((createImageModel { baseURL := some "/" } "black-forest-labs/FLUX-1-dev" none).config.baseURL
        = "https://api.deepinfra.com/v1/inference") := by
  constructor
  · rw [(claim5_image_baseURL {} "black-forest-labs/FLUX-1-dev" none).2.1
      (by decide)]
    decide
  · exact (claim5_image_baseURL { baseURL := some "/" } "black-forest-labs/FLUX-1-dev" none).2.2 (by decide)

/-- C6 counterexample: the claim says the image configuration does not
contain the common `/openai` URL-resolver, but the object spread in
`createImageModel` copies it in: on a concrete provider the image
configuration's `url` field is exactly the common resolver for kind
`image` and still maps paths to `/openai` URLs. -/
theorem claim6_counterexample :
    ((createImageModel {} "black-forest-labs/FLUX-1-dev" none).config.url
        = (getCommonModelConfig {} "image").url)
      ∧ ((createImageModel {} "black-forest-labs/FLUX-1-dev" none).config.url
          "/p" = "https://api.deepinfra.com/v1/openai/p") := by
  refine ⟨rfl, ?_⟩
  show providerBaseURL {} ++ "/openai" ++ "/p" = _
  decide

/-- C6 amended: the configuration record passed to the image model
constructor carries an explicit `baseURL` field, and, because it is built
by spreading the common configuration for kind `image`, it also contains
all common fields, the `/openai` URL-resolver included. -/
theorem claim6_image_config_spread
    (options : DeepInfraProviderSettings) (modelId : DeepInfraImageModelId)
    (settings : Option DeepInfraImageSettings) :
    ((createImageModel options modelId settings).config.baseURL
        = if providerBaseURL options = "" then
            "https://api.deepinfra.com/v1/inference"
          else providerBaseURL options ++ "/inference")
      ∧ ((createImageModel options modelId settings).config.toCommonModelConfig
        = getCommonModelConfig options "image") :=
  ⟨rfl, rfl⟩

/-- C7: for every model kind the common configuration carries the provider
tag `deepinfra.` followed by the kind, the `/openai` URL resolver, the
shared header resolver, and the caller's fetch override; each created
model instance receives these unmodified. -/
theorem claim7_common_config
    (options : DeepInfraProviderSettings) (modelType : String)
    (modelId : String) (cs : Option DeepInfraChatSettings)
    (ps : Option DeepInfraCompletionSettings)
    (es : Option DeepInfraEmbeddingSettings)
    (ims : Option DeepInfraImageSettings) :
    ((getCommonModelConfig options modelType).provider
        = "deepinfra." ++ modelType)
      ∧ ((getCommonModelConfig options modelType).url
        = fun path => providerBaseURL options ++ "/openai" ++ path)
      ∧ ((getCommonModelConfig options modelType).headers
        = getHeaders options)
      ∧ ((getCommonModelConfig options modelType).fetch = options.fetch)
      ∧ ((createChatModel options modelId cs).config.provider
            = "deepinfra.chat"
        ∧ (createChatModel options modelId cs).config.fetch = options.fetch
        ∧ (createChatModel options modelId cs).config.headers
            = getHeaders options)
      ∧ ((createCompletionModel options modelId ps).config.provider
            = "deepinfra.completion"
        ∧ (createCompletionModel options modelId ps).config.fetch
            = options.fetch
        ∧ (createCompletionModel options modelId ps).config.headers
            = getHeaders options)
      ∧ ((createTextEmbeddingModel options modelId es).config.provider
            = "deepinfra.embedding"
        ∧ (createTextEmbeddingModel options modelId es).config.fetch
            = options.fetch
        ∧ (createTextEmbeddingModel options modelId es).config.headers
            = getHeaders options)
      ∧ ((createImageModel options modelId ims).config.provider
            = "deepinfra.image"
        ∧ (createImageModel options modelId ims).config.fetch
            = options.fetch
        ∧ (createImageModel options modelId ims).config.headers
            = getHeaders options) :=
  ⟨rfl, rfl, rfl, rfl, ⟨rfl, rfl, rfl⟩, ⟨rfl, rfl, rfl⟩, ⟨rfl, rfl, rfl⟩,
    ⟨rfl, rfl, rfl⟩⟩

/-- C8: the chat model configuration is exactly the common configuration
for kind `chat` plus the single fixed `defaultObjectGenerationMode` flag
set to `json`, while the completion model configuration is exactly the
common configuration for kind `completion` with nothing added. -/
theorem claim8_chat_flag_completion_plain
    (options : DeepInfraProviderSettings) (modelId : String)
    (cs : Option DeepInfraChatSettings)
    (ps : Option DeepInfraCompletionSettings) :
    ((createChatModel options modelId cs).config.toCommonModelConfig
        = getCommonModelConfig options "chat")
      ∧ ((createChatModel options modelId
          cs).config.defaultObjectGenerationMode = "json")
      ∧ ((createCompletionModel options modelId ps).config
        = getCommonModelConfig options "completion") :=
  ⟨rfl, rfl, rfl⟩

/-- C9: every factory method passes the caller's `modelId` and supplied
`settings` arguments through unchanged as the first two constructor
arguments, supplying only the configuration itself. -/
theorem claim9_passthrough
    (options : DeepInfraProviderSettings) (modelId : String)
    (cs : DeepInfraChatSettings) (ps : DeepInfraCompletionSettings)
    (es : DeepInfraEmbeddingSettings) (ims : DeepInfraImageSettings) :
    ((createChatModel options modelId (some cs)).modelId = modelId
      ∧ (createChatModel options modelId (some cs)).settings = cs)
    ∧ ((createCompletionModel options modelId (some ps)).modelId = modelId
      ∧ (createCompletionModel options modelId (some ps)).settings = ps)
    ∧ ((createTextEmbeddingModel options modelId (some es)).modelId = modelId
      ∧ (createTextEmbeddingModel options modelId (some es)).settings = es)
    ∧ ((createImageModel options modelId (some ims)).modelId = modelId
      ∧ (createImageModel options modelId (some ims)).settings = ims) :=
  ⟨⟨rfl, rfl⟩, ⟨rfl, rfl⟩, ⟨rfl, rfl⟩, ⟨rfl, rfl⟩⟩

/-- C10: the exported constant `deepinfra` is `createDeepInfra` applied to
the default empty settings: its resolved base URL is the default DeepInfra
endpoint, it has no custom headers, fetch override or explicit API key,
and its header resolver reads `DEEPINFRA_API_KEY` from the environment
supplied at header-computation time, failing only then when the variable
is unset. -/
theorem claim10_default_instance (modelId : DeepInfraChatModelId)
    (settings : Option DeepInfraChatSettings) (env : Env) :
    deepinfra = createDeepInfra {}
      ∧ providerBaseURL {} = "https://api.deepinfra.com/v1"
      ∧ ({} : DeepInfraProviderSettings).apiKey = none
      ∧ ({} : DeepInfraProviderSettings).headers = none
      ∧ ({} : DeepInfraProviderSettings).fetch = none
      ∧ ((deepinfra.chatModel modelId settings).config.headers
        = getHeaders {})
      ∧ (∀ k, env "DEEPINFRA_API_KEY" = some k →
          getHeaders {} env = Except.ok [("Authorization", "Bearer " ++ k)])
      ∧ (env "DEEPINFRA_API_KEY" = none →
          getHeaders {} env = Except.error
            "DeepInfra API key is missing. Pass it using the apiKey parameter or the DEEPINFRA_API_KEY environment variable.") := by
  refine ⟨rfl, by decide, rfl, rfl, rfl, rfl, ?_, ?_⟩
  · intro k h
    simp only [getHeaders, loadApiKey, h]
    rfl
  · intro h
    simp only [getHeaders, loadApiKey, h]
    rfl

/-- C10 witness: with a concrete environment holding the key, the default
instance's header resolver produces the Bearer header; with an empty
environment it fails with the missing-key error. -/
theorem claim10_witness :
    getHeaders {} (fun n => if n = "DEEPINFRA_API_KEY" then some "sk-env" else none)
        = Except.ok [("Authorization", "Bearer " ++ "sk-env")]
      ∧ getHeaders {} (fun _ => none) = Except.error
          "DeepInfra API key is missing. Pass it using the apiKey parameter or the DEEPINFRA_API_KEY environment variable." :=
  ⟨(claim10_default_instance "m" none
      (fun n => if n = "DEEPINFRA_API_KEY" then some "sk-env" else none)).2.2.2.2.2.2.1
      "sk-env" (by decide),
    (claim10_default_instance "m" none (fun _ => none)).2.2.2.2.2.2.2 rfl⟩

end DeepInfraSpec
